import Mathlib

/-!
Shallow embedding of the authentication-gating layer of the repository:

* `src/app/api/sso-auth-status/route.ts` — the SSO auth-status endpoint
  (identity-header reader, assertion decoder, domain policy check);
* `src/app/api/image-delete/route.ts` — the image-delete endpoint
  (the `isUserAuthenticated` gate and the `POST` handler).

Modelling conventions:

* JavaScript string falsiness is modelled by the empty string: a field whose
  value may be absent or empty (`userId`, `process.env.*`, `passwordHash`)
  is a `String` where `""` stands for both "absent" and "empty", exactly the
  values that are falsy in the source's truthiness tests.
* `atob` + `JSON.parse` is an external primitive; it is modelled as an
  abstract `decode : String → Option UserInfo` parameter, where `none`
  stands for a thrown exception (malformed base64 or malformed JSON), which
  the source catches.
* `crypto.createHash('sha256')` is an external primitive; it is modelled as
  an abstract `sha256 : String → String` parameter.
* `fs.unlink` is modelled by an abstract filesystem `fsOutcome : String →
  UnlinkOutcome` giving, per path, the outcome the call would have; every
  attempted call is recorded as an `FsEffect.unlink` in an effect trace, so
  "no filesystem access" is the absence of such an effect.
* Request headers are a list of name/value pairs; `Headers.get` is
  case-insensitive in the fetch API, so the lookup lowercases names.
-/

namespace GptImagePlayground

/-- A claim inside an identity assertion: a `(typ, val)` pair
(interface `UserClaim` in both route files). -/
structure UserClaim where
  typ : String
  val : String
  deriving Repr, DecidableEq

/-- The decoded identity assertion (interface `UserInfo` in both route files).
`userId = ""` models a missing or empty (falsy) `userId`; `claims = none`
models an absent `claims` field. -/
structure UserInfo where
  userId : String
  userDetails : String
  identityProvider : String
  claims : Option (List UserClaim)
  deriving Repr, DecidableEq

/-- An incoming HTTP request: its headers and the other parts the handlers
read only for logging. -/
structure Request where
  headers : List (String × String)
  url : String
  method : String
  deriving Repr, DecidableEq

/-- Case-insensitive header-name equality, modelled on character lists. -/
def headerNameEq (a b : String) : Bool :=
  a.data.map Char.toLower == b.data.map Char.toLower

/-- `request.headers.get(name)`: case-insensitive header lookup. -/
def headersGet (req : Request) (name : String) : Option String :=
  (req.headers.find? (fun p => headerNameEq p.fst name)).map (fun p => p.snd)

/-- The platform identity header read by both route files. -/
def principalHeaderName : String := "x-ms-client-principal"

/-- The allowed email-domain suffix hardcoded in the auth-status route. -/
def domainSuffix : String := "@herzogdemeuron.com"

/-- JavaScript `s.endsWith(suffix)`: literal, case-sensitive suffix match,
modelled on the underlying character lists. -/
def strEndsWith (s suffix : String) : Bool := suffix.data.isSuffixOf s.data

/-- Occurrence of `pat` as a contiguous sublist of a character list. -/
def hasSubstring (pat : List Char) : List Char → Bool
  | [] => pat.isEmpty
  | c :: rest => pat.isPrefixOf (c :: rest) || hasSubstring pat rest

/-- JavaScript `s.includes(pat)`: `pat` occurs as a substring of `s`,
modelled on the underlying character lists. -/
def strIncludes (s pat : String) : Bool := hasSubstring pat.data s.data

/-- `userInfo.claims?.find(c => c.typ === 'email')`: the first claim of type
`"email"`, or `none` when `claims` is absent or has no such claim. -/
def firstEmailClaim (u : UserInfo) : Option UserClaim :=
  (u.claims.getD []).find? (fun c => c.typ == "email")

/-- The `user` record in a successful auth-status response. -/
structure AuthUser where
  id : String
  name : String
  email : String
  provider : String
  deriving Repr, DecidableEq

/-- The auth-status response body: `{ authenticated, user }`. -/
structure AuthStatusResponse where
  authenticated : Bool
  user : Option AuthUser
  deriving Repr, DecidableEq

/-- The policy check inside the `try` block of the auth-status `GET` handler
(route.ts lines 49–69): extract the first email claim, default its value to
`""` (`emailClaim?.val || ''`), require the literal suffix
`@herzogdemeuron.com`, and on success build the user record. -/
def policyCheck (userInfo : UserInfo) : AuthStatusResponse :=
  let emailClaim := firstEmailClaim userInfo
  let userEmail := (emailClaim.map UserClaim.val).getD ""
  if !(strEndsWith userEmail domainSuffix) then
    { authenticated := false, user := none }
  else
    { authenticated := true,
      user := some { id := userInfo.userId, name := userInfo.userDetails,
                     email := userEmail, provider := userInfo.identityProvider } }

/-- Observable effect of the auth-status handler: an attempt to decode the
header value (`atob` + `JSON.parse` were reached). -/
inductive AuthEffect where
  | decodeAttempt (raw : String)
  deriving Repr, DecidableEq

/-- The auth-status `GET` handler (route.ts lines 15–77): read the identity
header; absent ⇒ unauthenticated without decoding; otherwise decode (a
`none` result models a caught exception ⇒ unauthenticated) and apply the
policy check. The handler also logs all headers, the URL and the method,
which does not influence the result. -/
def ssoAuthStatusGET (decode : String → Option UserInfo) (req : Request) :
    AuthStatusResponse × List AuthEffect :=
  match headersGet req principalHeaderName with
  | none => ({ authenticated := false, user := none }, [])
  | some raw =>
    match decode raw with
    | none => ({ authenticated := false, user := none }, [AuthEffect.decodeAttempt raw])
    | some userInfo => (policyCheck userInfo, [AuthEffect.decodeAttempt raw])

/-- Process-wide configuration read from the environment by the delete route.
`""` models an unset (falsy) variable. `outputDir` is the module-level
`path.resolve(process.cwd(), 'generated-images')`. -/
structure Env where
  azureTenantId : String
  appPassword : String
  outputDir : String
  deriving Repr, DecidableEq

/-- The SSO part of `isUserAuthenticated` (image-delete route lines 37–57):
`some b` models an early `return b` from the `try` block; `none` models
falling through to the password fallback (no header, decode exception, or
falsy `userId`). -/
def ssoGateStep (decode : String → Option UserInfo) (env : Env) (req : Request) :
    Option Bool :=
  match headersGet req principalHeaderName with
  | none => none
  | some raw =>
    match decode raw with
    | none => none
    | some userInfo =>
      if userInfo.userId != "" then
        if env.azureTenantId != "" then
          match (userInfo.claims.getD []).find? (fun c => c.typ == "tid") with
          | none => some false
          | some c => some (c.val == env.azureTenantId)
        else some true
      else none

/-- `isUserAuthenticated(request, requestBody)` (image-delete route lines
35–72): SSO path first; on fall-through, if a server password is configured
and a client hash was supplied, compare it with the SHA-256 hex hash of the
server password. -/
def isUserAuthenticated (decode : String → Option UserInfo) (sha256 : String → String)
    (env : Env) (req : Request) (bodyPasswordHash : String) : Bool :=
  match ssoGateStep decode env req with
  | some b => b
  | none =>
    if env.appPassword != "" then
      if bodyPasswordHash != "" then
        bodyPasswordHash == sha256 env.appPassword
      else false
    else false

/-- A JSON value as far as the filenames validation distinguishes them:
a string, or anything else (`typeof fn !== 'string'`). -/
inductive JVal where
  | str (s : String)
  | nonStr
  deriving Repr, DecidableEq

/-- `typeof v === 'string'`. -/
def JVal.isStr : JVal → Bool
  | .str _ => true
  | .nonStr => false

/-- The parsed delete request body. `filenames = none` models a `filenames`
field that is absent or not an array (`Array.isArray` false);
`passwordHash = ""` models an absent or empty (falsy) field. -/
structure DeleteRequestBody where
  filenames : Option (List JVal)
  passwordHash : String
  deriving Repr, DecidableEq

/-- Per-filename outcome (`FileDeletionResult` in the source). -/
structure FileDeletionResult where
  filename : String
  success : Bool
  error : Option String
  deriving Repr, DecidableEq

/-- Observable filesystem effect: an attempted `fs.unlink(filepath)`,
recorded whether or not the call succeeds. -/
inductive FsEffect where
  | unlink (filepath : String)
  deriving Repr, DecidableEq

/-- Outcome an `fs.unlink` call would have at a given path: success, failure
with `code === 'ENOENT'`, or failure for any other reason. -/
inductive UnlinkOutcome where
  | ok
  | enoent
  | otherErr
  deriving Repr, DecidableEq

/-- The per-filename guard (image-delete route line 105):
`!filename || filename.includes('..') || filename.includes('/') ||
filename.includes('\\')`. -/
def isInvalidFilename (fn : String) : Bool :=
  fn == "" || strIncludes fn ".." || strIncludes fn "/" || strIncludes fn "\\"

/-- One iteration of the deletion loop (route lines 104–125): reject an
invalid filename without touching the filesystem, otherwise record the
outcome of `fs.unlink(path.join(outputDir, filename))`, mapping `ENOENT`
and other failures to their distinct error strings. -/
def deleteOne (fsOutcome : String → UnlinkOutcome) (outputDir fn : String) :
    FileDeletionResult :=
  if isInvalidFilename fn then
    { filename := fn, success := false, error := some "Invalid filename format." }
  else
    match fsOutcome (outputDir ++ "/" ++ fn) with
    | .ok => { filename := fn, success := true, error := none }
    | .enoent => { filename := fn, success := false, error := some "File not found." }
    | .otherErr => { filename := fn, success := false, error := some "Failed to delete file." }

/-- The filesystem effects of one iteration: no call for an invalid
filename, one attempted `unlink` otherwise. -/
def deleteOneEffects (outputDir fn : String) : List FsEffect :=
  if isInvalidFilename fn then [] else [FsEffect.unlink (outputDir ++ "/" ++ fn)]

/-- The sequential deletion loop over all filenames (route lines 102–125),
returning the accumulated `deletionResults` and the trace of attempted
filesystem calls. -/
def processFilenames (fsOutcome : String → UnlinkOutcome) (outputDir : String) :
    List String → List FileDeletionResult × List FsEffect
  | [] => ([], [])
  | fn :: rest =>
    let tail := processFilenames fsOutcome outputDir rest
    (deleteOne fsOutcome outputDir fn :: tail.1,
     deleteOneEffects outputDir fn ++ tail.2)

/-- The delete endpoint's JSON response: status plus the optional `error`,
`message` and `results` fields (absent fields are `none`). -/
structure PostResponse where
  status : Nat
  error : Option String
  message : Option String
  results : Option (List FileDeletionResult)
  deriving Repr, DecidableEq

/-- The final response of the deletion loop (route lines 127–135): 200 when
every item succeeded, 207 otherwise, with per-item results either way. -/
def deleteBatchResponse (rs : List FileDeletionResult) : PostResponse :=
  let allSucceeded := rs.all (fun r => r.success)
  { status := if allSucceeded then 200 else 207,
    error := none,
    message := some (if allSucceeded then "All files deleted successfully."
                     else "Some files could not be deleted."),
    results := some rs }

/-- The image-delete `POST` handler (route lines 74–136). `body = none`
models `request.json()` throwing (not valid JSON) ⇒ 400; then the
authorization gate ⇒ 401; then the filenames shape check ⇒ 400; then the
empty-list short-circuit ⇒ 200 with empty results; finally the deletion
loop. The second component is the trace of attempted filesystem calls. -/
def imageDeletePOST (decode : String → Option UserInfo) (sha256 : String → String)
    (fsOutcome : String → UnlinkOutcome) (env : Env) (req : Request)
    (body : Option DeleteRequestBody) : PostResponse × List FsEffect :=
  match body with
  | none =>
    ({ status := 400, error := some "Invalid request body: Must be JSON.",
       message := none, results := none }, [])
  | some requestBody =>
    if !(isUserAuthenticated decode sha256 env req requestBody.passwordHash) then
      ({ status := 401, error := some "Unauthorized: Authentication required.",
         message := none, results := none }, [])
    else
      match requestBody.filenames with
      | none =>
        ({ status := 400, error := some "Invalid filenames: Must be an array of strings.",
           message := none, results := none }, [])
      | some vals =>
        if vals.any (fun v => !(JVal.isStr v)) then
          ({ status := 400, error := some "Invalid filenames: Must be an array of strings.",
             message := none, results := none }, [])
        else
          let filenames := vals.filterMap (fun v => match v with
            | .str s => some s
            | .nonStr => none)
          if filenames.length == 0 then
            ({ status := 200, error := none,
               message := some "No filenames provided to delete.",
               results := some [] }, [])
          else
            let out := processFilenames fsOutcome env.outputDir filenames
            (deleteBatchResponse out.1, out.2)

/-- SSO path full success: the gate's `try` block reaches `return true`
(header present, decodable, truthy `userId`, tenant check passed or not
configured). -/
def ssoPathSucceeds (decode : String → Option UserInfo) (env : Env) (req : Request) : Bool :=
  match ssoGateStep decode env req with
  | some true => true
  | _ => false

/-- SSO path hard failure: the gate's `try` block reaches `return false`
(truthy `userId` but the configured tenant check fails). -/
def ssoPathHardFails (decode : String → Option UserInfo) (env : Env) (req : Request) : Bool :=
  match ssoGateStep decode env req with
  | some false => true
  | _ => false

/-- The password fallback on its own (image-delete route lines 60–69). -/
def passwordPathSucceeds (sha256 : String → String) (env : Env) (ph : String) : Bool :=
  if env.appPassword != "" then
    if ph != "" then ph == sha256 env.appPassword
    else false
  else false

theorem processFilenames_results (fsOutcome : String → UnlinkOutcome) (outputDir : String)
    (fns : List String) :
    (processFilenames fsOutcome outputDir fns).1 = fns.map (deleteOne fsOutcome outputDir) := by
  induction fns with
  | nil => rfl
  | cons fn rest ih => simp [processFilenames, ih]

theorem processFilenames_effects (fsOutcome : String → UnlinkOutcome) (outputDir : String)
    (fns : List String) :
    (processFilenames fsOutcome outputDir fns).2 =
      (fns.filter (fun fn => !(isInvalidFilename fn))).map
        (fun fn => FsEffect.unlink (outputDir ++ "/" ++ fn)) := by
  induction fns with
  | nil => rfl
  | cons fn rest ih =>
    cases h : isInvalidFilename fn with
    | true => simp [processFilenames, deleteOneEffects, List.filter_cons, h, ih]
    | false => simp [processFilenames, deleteOneEffects, List.filter_cons, h, ih]

theorem filterMap_str_map (l : List String) :
    (l.map JVal.str).filterMap (fun v => match v with
      | JVal.str s => some s
      | JVal.nonStr => none) = l := by
  induction l with
  | nil => rfl
  | cons f rest ih => exact congrArg (List.cons f) ih

/-- Example decoder: one recognizable header value decodes to a principal
whose only claim is a mismatching tenant id; everything else fails. -/
def exDecode : String → Option UserInfo := fun raw =>
  if raw == "PRINCIPAL" then
    some { userId := "user-1", userDetails := "User One", identityProvider := "aad",
           claims := some [{ typ := "tid", val := "other-tenant" }] }
  else none

/-- Example hash function standing in for the SHA-256 hex digest. -/
def exSha256 : String → String := fun s => "hash:" ++ s

/-- Example filesystem: `out/missing.png` is absent, everything else
deletes fine. -/
def exFs : String → UnlinkOutcome := fun p =>
  if p == "out/missing.png" then UnlinkOutcome.enoent else UnlinkOutcome.ok

/-- Example configuration with nothing set. -/
def exEnvNone : Env := { azureTenantId := "", appPassword := "", outputDir := "out" }

/-- Example configuration with only a password set. -/
def exEnvPw : Env := { azureTenantId := "", appPassword := "pw", outputDir := "out" }

/-- Example configuration with a tenant id and a password set. -/
def exEnvTenantPw : Env :=
  { azureTenantId := "tenant-a", appPassword := "pw", outputDir := "out" }

/-- Example request carrying no identity header. -/
def exReqNoHeader : Request :=
  { headers := [], url := "/api/image-delete", method := "POST" }

/-- Example request carrying the identity header recognized by `exDecode`. -/
def exReqPrincipal : Request :=
  { headers := [("x-ms-client-principal", "PRINCIPAL")],
    url := "/api/image-delete", method := "POST" }

/-- Example assertion with an email claim in the allowed domain. -/
def exUserOk : UserInfo :=
  { userId := "u1", userDetails := "User One", identityProvider := "aad",
    claims := some [{ typ := "email", val := "a@herzogdemeuron.com" }] }

/-- C1: the auth-status policy check returns `authenticated=true` with
`user = {id: userId, name: userDetails, email, provider: identityProvider}`
and `user.email` equal to the value of the first claim of type `"email"`
exactly when that value ends — case-sensitively, as a literal suffix — with
`@herzogdemeuron.com`; when the email claim is absent or its value does not
end with the suffix, the result is `authenticated=false`, `user=null`. -/
theorem policy_email_suffix_iff (u : UserInfo) :
    (∀ c, firstEmailClaim u = some c → strEndsWith c.val domainSuffix = true →
        policyCheck u =
          { authenticated := true,
            user := some { id := u.userId, name := u.userDetails,
                           email := c.val, provider := u.identityProvider } }) ∧
    (∀ c, firstEmailClaim u = some c → strEndsWith c.val domainSuffix = false →
        policyCheck u = { authenticated := false, user := none }) ∧
    (firstEmailClaim u = none →
        policyCheck u = { authenticated := false, user := none }) := by
  have hempty : strEndsWith "" domainSuffix = false := by decide
  refine ⟨?_, ?_, ?_⟩
  · intro c hc hs
    simp [policyCheck, hc, hs]
  · intro c hc hs
    simp [policyCheck, hc, hs]
  · intro hn
    simp [policyCheck, hn, hempty]

/-- Witness for C1: a concrete assertion whose email claim value ends with
the required suffix is authenticated with exactly that user record. -/
theorem policy_email_suffix_iff_witness :
    policyCheck exUserOk =
      { authenticated := true,
        user := some { id := "u1", name := "User One",
                       email := "a@herzogdemeuron.com", provider := "aad" } } :=
  (policy_email_suffix_iff exUserOk).1 { typ := "email", val := "a@herzogdemeuron.com" }
    (by decide) (by decide)

/-- C2 counterexample: a request whose SSO path fails on the tenant check
(present `userId`, configured tenant id, mismatching `tid` claim) returns
`false` even though the password-hash path would succeed — a server
password is configured and the client hash equals the hash of it. -/
theorem gate_tenant_mismatch_blocks_password :
    exEnvTenantPw.appPassword ≠ "" ∧
    exSha256 "pw" = exSha256 exEnvTenantPw.appPassword ∧
    isUserAuthenticated exDecode exSha256 exEnvTenantPw exReqPrincipal (exSha256 "pw") = false :=
  ⟨by decide, rfl, by decide⟩

/-- C2 amended: `isUserAuthenticated` returns true exactly when the SSO
path succeeds, or when the SSO path falls through (absent header, decode
failure, or falsy `userId`) and the password-hash path succeeds; a hard SSO
failure on the tenant check returns false without consulting the password
path. -/
theorem gate_sso_password_paths (decode : String → Option UserInfo)
    (sha256 : String → String) (env : Env) (req : Request) (ph : String) :
    isUserAuthenticated decode sha256 env req ph =
      (ssoPathSucceeds decode env req ||
        (!(ssoPathHardFails decode env req) && passwordPathSucceeds sha256 env ph)) := by
  unfold isUserAuthenticated ssoPathSucceeds ssoPathHardFails passwordPathSucceeds
  cases h : ssoGateStep decode env req with
  | none => simp
  | some b => cases b <;> simp

/-- C3: every filename containing `..`, `/` or `\` is rejected with the
per-item `Invalid filename format.` error, contributes no filesystem call,
and the loop still processes every other entry: the result list is as long
as the input and the attempted unlinks are exactly those of the valid
filenames. -/
theorem traversal_filenames_rejected (fsOutcome : String → UnlinkOutcome)
    (outputDir : String) (fns : List String) :
    (processFilenames fsOutcome outputDir fns).1.length = fns.length ∧
    (∀ (i : Nat) (fn : String), fns[i]? = some fn →
        (strIncludes fn ".." || strIncludes fn "/" || strIncludes fn "\\") = true →
        (processFilenames fsOutcome outputDir fns).1[i]? =
          some ({ filename := fn, success := false,
                  error := some "Invalid filename format." } : FileDeletionResult)) ∧
    (processFilenames fsOutcome outputDir fns).2 =
      (fns.filter (fun fn => !(isInvalidFilename fn))).map
        (fun fn => FsEffect.unlink (outputDir ++ "/" ++ fn)) := by
  refine ⟨?_, ?_, processFilenames_effects fsOutcome outputDir fns⟩
  · rw [processFilenames_results]
    exact List.length_map fns _
  · intro i fn hget hbad
    have hinv : isInvalidFilename fn = true := by
      simp only [Bool.or_eq_true] at hbad
      simp only [isInvalidFilename, Bool.or_eq_true]
      tauto
    rw [processFilenames_results, List.getElem?_map, hget]
    simp [deleteOne, hinv]

/-- Witness for C3 at the spec's own example `../../etc/passwd`. -/
theorem traversal_filenames_rejected_witness :
    (processFilenames (fun _ => UnlinkOutcome.ok) "generated-images" ["../../etc/passwd"]).1[0]? =
      some { filename := "../../etc/passwd", success := false,
             error := some "Invalid filename format." } :=
  (traversal_filenames_rejected (fun _ => UnlinkOutcome.ok) "generated-images"
      ["../../etc/passwd"]).2.1 0 "../../etc/passwd" rfl (by decide)

/-- C4: an absent identity header yields `authenticated=false` with no
decode attempt, and a header whose decode fails (malformed base64 or JSON,
modelled by `decode raw = none`) yields `authenticated=false, user=null`;
the handler is total, so no exception escapes it. -/
theorem auth_status_failure_paths (decode : String → Option UserInfo) (req : Request) :
    (headersGet req principalHeaderName = none →
        ssoAuthStatusGET decode req = ({ authenticated := false, user := none }, [])) ∧
    (∀ raw, headersGet req principalHeaderName = some raw → decode raw = none →
        ssoAuthStatusGET decode req =
          ({ authenticated := false, user := none }, [AuthEffect.decodeAttempt raw])) := by
  constructor
  · intro h
    simp [ssoAuthStatusGET, h]
  · intro raw h hd
    simp [ssoAuthStatusGET, h, hd]

/-- Witness for C4: a concrete request with no identity header. -/
theorem auth_status_failure_paths_witness :
    ssoAuthStatusGET exDecode { headers := [], url := "/api/sso-auth-status", method := "GET" } =
      ({ authenticated := false, user := none }, []) :=
  (auth_status_failure_paths exDecode
      { headers := [], url := "/api/sso-auth-status", method := "GET" }).1 rfl

/-- C5: an unauthorized delete request is answered with status 401, an
`error` body without a `results` field, and an empty filesystem trace. -/
theorem unauthorized_delete_untouched (decode : String → Option UserInfo)
    (sha256 : String → String) (fsOutcome : String → UnlinkOutcome) (env : Env)
    (req : Request) (b : DeleteRequestBody)
    (h : isUserAuthenticated decode sha256 env req b.passwordHash = false) :
    imageDeletePOST decode sha256 fsOutcome env req (some b) =
      ({ status := 401, error := some "Unauthorized: Authentication required.",
         message := none, results := none }, []) := by
  simp [imageDeletePOST, h]

/-- Witness for C5: no identity header, no configured password. -/
theorem unauthorized_delete_untouched_witness :
    imageDeletePOST exDecode exSha256 (fun _ => UnlinkOutcome.ok) exEnvNone exReqNoHeader
        (some { filenames := some [JVal.str "x.png"], passwordHash := "" }) =
      ({ status := 401, error := some "Unauthorized: Authentication required.",
         message := none, results := none }, []) :=
  unauthorized_delete_untouched exDecode exSha256 (fun _ => UnlinkOutcome.ok) exEnvNone
    exReqNoHeader { filenames := some [JVal.str "x.png"], passwordHash := "" } (by decide)

/-- C6: in an authorized delete batch, a valid filename whose unlink fails
with `ENOENT` gets the per-item error `File not found.`, any other unlink
failure gets `Failed to delete file.`, both without aborting the batch (the
result list covers every input), and the overall response carries status
200 when every item succeeded and 207 otherwise, with the per-item results
present in both cases. -/
theorem delete_batch_tags_and_status (decode : String → Option UserInfo)
    (sha256 : String → String) (fsOutcome : String → UnlinkOutcome) (env : Env)
    (req : Request) (b : DeleteRequestBody) (fns : List String)
    (hauth : isUserAuthenticated decode sha256 env req b.passwordHash = true)
    (hfn : b.filenames = some (fns.map JVal.str)) (hne : fns ≠ []) :
    (∀ (i : Nat) (fn : String), fns[i]? = some fn → isInvalidFilename fn = false →
        fsOutcome (env.outputDir ++ "/" ++ fn) = UnlinkOutcome.enoent →
        (processFilenames fsOutcome env.outputDir fns).1[i]? =
          some ({ filename := fn, success := false,
                  error := some "File not found." } : FileDeletionResult)) ∧
    (∀ (i : Nat) (fn : String), fns[i]? = some fn → isInvalidFilename fn = false →
        fsOutcome (env.outputDir ++ "/" ++ fn) = UnlinkOutcome.otherErr →
        (processFilenames fsOutcome env.outputDir fns).1[i]? =
          some ({ filename := fn, success := false,
                  error := some "Failed to delete file." } : FileDeletionResult)) ∧
    (processFilenames fsOutcome env.outputDir fns).1.length = fns.length ∧
    (imageDeletePOST decode sha256 fsOutcome env req (some b)).1.status =
      (if ((processFilenames fsOutcome env.outputDir fns).1).all (fun r => r.success)
       then 200 else 207) ∧
    (imageDeletePOST decode sha256 fsOutcome env req (some b)).1.results =
      some (processFilenames fsOutcome env.outputDir fns).1 := by
  have hall : (fns.map JVal.str).any (fun v => !(JVal.isStr v)) = false := by
    simp [List.any_map, JVal.isStr, Function.comp]
  have hfilter := filterMap_str_map fns
  have hlen : (fns.length == 0) = false := by
    cases fns with
    | nil => exact absurd rfl hne
    | cons f rest => simp
  have hpost : imageDeletePOST decode sha256 fsOutcome env req (some b) =
      (deleteBatchResponse (processFilenames fsOutcome env.outputDir fns).1,
       (processFilenames fsOutcome env.outputDir fns).2) := by
    simp [imageDeletePOST, hauth, hfn, hall, hfilter, hlen]
  refine ⟨?_, ?_, ?_, ?_, ?_⟩
  · intro i fn hget hval hout
    rw [processFilenames_results, List.getElem?_map, hget]
    simp [deleteOne, hval, hout]
  · intro i fn hget hval hout
    rw [processFilenames_results, List.getElem?_map, hget]
    simp [deleteOne, hval, hout]
  · rw [processFilenames_results]
    exact List.length_map fns _
  · rw [hpost]
    rfl
  · rw [hpost]
    rfl

/-- Witness for C6: a two-file batch where the second file is missing on
disk gets the `File not found.` tag at its position. -/
theorem delete_batch_tags_and_status_witness :
    (processFilenames exFs "out" ["a.png", "missing.png"]).1[1]? =
      some ({ filename := "missing.png", success := false,
              error := some "File not found." } : FileDeletionResult) :=
  (delete_batch_tags_and_status exDecode exSha256 exFs exEnvPw exReqNoHeader
      { filenames := some [JVal.str "a.png", JVal.str "missing.png"],
        passwordHash := exSha256 "pw" }
      ["a.png", "missing.png"] (by decide) rfl (by decide)).1 1 "missing.png" rfl
    (by decide) (by decide)

/-- C7 counterexample: a delete request whose `filenames` field is not a
string array but which is not authorized is answered with status 401, not
400 — the authorization gate runs before the filenames-shape validation. -/
theorem delete_bad_filenames_unauthorized_401 :
    (imageDeletePOST exDecode exSha256 (fun _ => UnlinkOutcome.ok) exEnvNone exReqNoHeader
        (some { filenames := none, passwordHash := "" })).1.status ≠ 400 ∧
    (imageDeletePOST exDecode exSha256 (fun _ => UnlinkOutcome.ok) exEnvNone exReqNoHeader
        (some { filenames := none, passwordHash := "" })).1.status = 401 :=
  ⟨by decide, by decide⟩

/-- C7 amended: a body that is not valid JSON is answered with status 400
and no further processing; for an authorized request, a `filenames` field
that is not an array, or an array containing a non-string, is answered with
status 400; in all three cases there is no filesystem access and no
`results` field. -/
theorem delete_invalid_shape_400 (decode : String → Option UserInfo)
    (sha256 : String → String) (fsOutcome : String → UnlinkOutcome) (env : Env)
    (req : Request) :
    (imageDeletePOST decode sha256 fsOutcome env req none =
        ({ status := 400, error := some "Invalid request body: Must be JSON.",
           message := none, results := none }, [])) ∧
    (∀ b : DeleteRequestBody,
        isUserAuthenticated decode sha256 env req b.passwordHash = true →
        b.filenames = none →
        imageDeletePOST decode sha256 fsOutcome env req (some b) =
          ({ status := 400, error := some "Invalid filenames: Must be an array of strings.",
             message := none, results := none }, [])) ∧
    (∀ (b : DeleteRequestBody) (vals : List JVal),
        isUserAuthenticated decode sha256 env req b.passwordHash = true →
        b.filenames = some vals → vals.any (fun v => !(JVal.isStr v)) = true →
        imageDeletePOST decode sha256 fsOutcome env req (some b) =
          ({ status := 400, error := some "Invalid filenames: Must be an array of strings.",
             message := none, results := none }, [])) := by
  refine ⟨rfl, ?_, ?_⟩
  · intro b hauth hfn
    simp [imageDeletePOST, hauth, hfn]
  · intro b vals hauth hfn hany
    simp [imageDeletePOST, hauth, hfn, hany]

/-- Witness for C7 amended: an authorized request whose `filenames` field
is not an array. -/
theorem delete_invalid_shape_400_witness :
    imageDeletePOST exDecode exSha256 (fun _ => UnlinkOutcome.ok) exEnvPw exReqNoHeader
        (some { filenames := none, passwordHash := exSha256 "pw" }) =
      ({ status := 400, error := some "Invalid filenames: Must be an array of strings.",
         message := none, results := none }, []) :=
  (delete_invalid_shape_400 exDecode exSha256 (fun _ => UnlinkOutcome.ok) exEnvPw
      exReqNoHeader).2.1 { filenames := none, passwordHash := exSha256 "pw" }
    (by decide) rfl

/-- C8: an authorized delete request with an empty filenames array is
answered with status 200 and an empty results array, with no filesystem
access. -/
theorem delete_empty_list_short_circuit (decode : String → Option UserInfo)
    (sha256 : String → String) (fsOutcome : String → UnlinkOutcome) (env : Env)
    (req : Request) (b : DeleteRequestBody)
    (hauth : isUserAuthenticated decode sha256 env req b.passwordHash = true)
    (hfn : b.filenames = some []) :
    imageDeletePOST decode sha256 fsOutcome env req (some b) =
      ({ status := 200, error := none, message := some "No filenames provided to delete.",
         results := some [] }, []) := by
  simp [imageDeletePOST, hauth, hfn]

/-- Witness for C8: password-authorized request with `filenames: []`. -/
theorem delete_empty_list_short_circuit_witness :
    imageDeletePOST exDecode exSha256 (fun _ => UnlinkOutcome.ok) exEnvPw exReqNoHeader
        (some { filenames := some [], passwordHash := exSha256 "pw" }) =
      ({ status := 200, error := none, message := some "No filenames provided to delete.",
         results := some [] }, []) :=
  delete_empty_list_short_circuit exDecode exSha256 (fun _ => UnlinkOutcome.ok) exEnvPw
    exReqNoHeader { filenames := some [], passwordHash := exSha256 "pw" } (by decide) rfl

/-- C9: the auth-status handler's output is a function of the identity
header value alone (given the fixed decode/configuration): two requests
agreeing on that header — whatever their other headers, URL or method —
produce identical responses and identical effect traces. -/
theorem auth_status_header_determined (decode : String → Option UserInfo)
    (r1 r2 : Request)
    (h : headersGet r1 principalHeaderName = headersGet r2 principalHeaderName) :
    ssoAuthStatusGET decode r1 = ssoAuthStatusGET decode r2 := by
  unfold ssoAuthStatusGET
  rw [h]

/-- Witness for C9: same identity header, different URL and extra header. -/
theorem auth_status_header_determined_witness :
    ssoAuthStatusGET exDecode
        { headers := [("x-ms-client-principal", "PRINCIPAL"), ("cookie", "c=1")],
          url := "/a", method := "GET" } =
      ssoAuthStatusGET exDecode
        { headers := [("x-ms-client-principal", "PRINCIPAL")], url := "/b", method := "GET" } :=
  auth_status_header_determined exDecode
    { headers := [("x-ms-client-principal", "PRINCIPAL"), ("cookie", "c=1")],
      url := "/a", method := "GET" }
    { headers := [("x-ms-client-principal", "PRINCIPAL")], url := "/b", method := "GET" }
    (by decide)

/-- C10: an empty-string filename — which contains none of the three
documented path-traversal signals — is still rejected with the per-item
error `Invalid filename format.` and contributes no filesystem call. -/
theorem empty_filename_rejected (fsOutcome : String → UnlinkOutcome) (outputDir : String)
    (fns : List String) :
    (∀ i : Nat, fns[i]? = some "" →
        (processFilenames fsOutcome outputDir fns).1[i]? =
          some ({ filename := "", success := false,
                  error := some "Invalid filename format." } : FileDeletionResult)) ∧
    (strIncludes "" ".." || strIncludes "" "/" || strIncludes "" "\\") = false ∧
    deleteOne fsOutcome outputDir "" =
      { filename := "", success := false, error := some "Invalid filename format." } ∧
    deleteOneEffects outputDir "" = [] := by
  have h0 : isInvalidFilename "" = true := by decide
  refine ⟨?_, by decide, by simp [deleteOne, h0], by simp [deleteOneEffects, h0]⟩
  intro i hget
  rw [processFilenames_results, List.getElem?_map, hget]
  simp [deleteOne, h0]

/-- Witness for C10: a singleton batch containing the empty filename. -/
theorem empty_filename_rejected_witness :
    (processFilenames (fun _ => UnlinkOutcome.ok) "out" [""]).1[0]? =
      some ({ filename := "", success := false,
              error := some "Invalid filename format." } : FileDeletionResult) :=
  (empty_filename_rejected (fun _ => UnlinkOutcome.ok) "out" [""]).1 0 rfl

end GptImagePlayground
